import Mathlib

/-!
Shallow embedding of the Vizify core: the session/token lifecycle from
`src/app/api/auth/[...nextauth]/route.ts`, the playback controller from
`src/app/dashboard/page.tsx`, and the per-frame visual mapping loop from
`src/components/Visualizer.tsx`.

JavaScript numbers used for time (`Date.now()`, expiry millis) are modelled
as `Nat`; audio-spectrum samples are `Nat` (they come from a `Uint8Array`);
the visualizer's real arithmetic (including `Math.sin`/`Math.cos`) is
modelled over `ℝ`.  JavaScript truthiness on optional values is modelled
explicitly (`undefined`, `0` and `""` are falsy).
-/

namespace Vizify

/-! ### Session/token lifecycle (`src/app/api/auth/[...nextauth]/route.ts`) -/

/-- The JWT token object threaded through the NextAuth `jwt` callback.
`accessTokenExpires` is an absolute time in milliseconds. -/
structure Token where
  accessToken : Option String
  accessTokenExpires : Option Nat
  refreshToken : Option String
  error : Option String
deriving Repr, DecidableEq

/-- Body of a successful (2xx) response from the provider's token endpoint. -/
structure RefreshResponse where
  access_token : String
  expires_in : Nat
  refresh_token : Option String
deriving Repr, DecidableEq

/-- The `account` object NextAuth passes to the `jwt` callback on initial
sign-in. -/
structure Account where
  access_token : Option String
  expires_in : Option Nat
  refresh_token : Option String
deriving Repr, DecidableEq

/-- JavaScript truthiness of an optional number: `undefined` and `0` are
falsy. -/
def numTruthy : Option Nat → Bool
  | none => false
  | some n => n != 0

/-- JavaScript truthiness of an optional string: `undefined`/`null` and `""`
are falsy. -/
def strTruthy : Option String → Bool
  | none => false
  | some s => s != ""

/-- `refreshAccessToken(token)`.  The network exchange with the token
endpoint is abstracted as `outcome`: `some r` models a 2xx response with
body `r`; `none` models a non-2xx response or a network error (both land in
the `catch` block).  On success the code spreads the old token and
overwrites `accessToken`, `accessTokenExpires` and `refreshToken`
(`refreshedTokens.refresh_token ?? token.refreshToken`); on failure it
spreads the old token and sets `error`. -/
def refreshAccessToken (token : Token) (now : Nat) :
    Option RefreshResponse → Token
  | some r =>
      { token with
        accessToken := some r.access_token
        accessTokenExpires := some (now + r.expires_in * 1000)
        refreshToken :=
          match r.refresh_token with
          | some s => some s
          | none => token.refreshToken }
  | none => { token with error := some "RefreshAccessTokenError" }

/-- `((account.expires_in as number) || 3600)`: the `||` default fires when
`expires_in` is absent, and also when it is `0` (falsy). -/
def jsOr3600 : Option Nat → Nat
  | none => 3600
  | some 0 => 3600
  | some (n + 1) => n + 1

/-- The initial-sign-in branch of the `jwt` callback (`if (account)`). -/
def signInToken (token : Token) (now : Nat) (account : Account) : Token :=
  { token with
    accessToken := account.access_token
    accessTokenExpires := some (now + jsOr3600 account.expires_in * 1000)
    refreshToken := account.refresh_token
    error := none }

/-- Result of one run of the `jwt` callback; `refreshAttempted` records
whether the branch that performs the network exchange with the token
endpoint was taken. -/
structure JwtResult where
  token : Token
  refreshAttempted : Bool
deriving Repr, DecidableEq

/-- The `jwt` callback.  `account` is `some` only on initial sign-in.  The
validity test is `tokenWithExpiry.accessTokenExpires && now <
tokenWithExpiry.accessTokenExpires` (truthiness on the expiry, then a
numeric comparison); the `!tokenWithExpiry.refreshToken` guard is
truthiness on the refresh token. -/
def jwt (token : Token) (account : Option Account) (now : Nat)
    (outcome : Option RefreshResponse) : JwtResult :=
  match account with
  | some a => ⟨signInToken token now a, false⟩
  | none =>
    if numTruthy token.accessTokenExpires &&
        decide (now < token.accessTokenExpires.getD 0) then
      ⟨token, false⟩
    else if !strTruthy token.refreshToken then
      ⟨{ token with error := some "RefreshAccessTokenError" }, false⟩
    else
      ⟨refreshAccessToken token now outcome, true⟩

/-! ### Playback controller (`src/app/dashboard/page.tsx`) -/

/-- A track as far as playback is concerned: only `preview_url` matters
(`string | null`). -/
structure Track where
  preview_url : Option String
deriving Repr, DecidableEq

/-- Playback-relevant state of the dashboard page: the `currentTrack` and
`isPlaying` React state, plus the hidden audio element's `src` and
`paused` flags.  The audio element is always rendered by the page, so it
is modelled as always present. -/
structure PlayerState where
  currentTrack : Option Track
  isPlaying : Bool
  audioSrc : String
  audioPaused : Bool
deriving Repr, DecidableEq

/-- State before any track is selected: no current track, nothing playing,
audio element empty and paused. -/
def initState : PlayerState :=
  { currentTrack := none, isPlaying := false, audioSrc := "", audioPaused := true }

/-- Whether the current track has preview audio (the spec's `hasPreview`
component of the playback state). -/
def hasPreview (s : PlayerState) : Bool :=
  match s.currentTrack with
  | some t => strTruthy t.preview_url
  | none => false

/-- `playTrack(track)`: always sets the current track; if
`track.preview_url` is truthy it assigns the source, starts playback and
sets `isPlaying` to `true` (the synchronous outcome — the `.catch` on the
play promise only runs later), otherwise it sets `isPlaying` to `false`,
pauses the audio element and clears its source. -/
def playTrack (s : PlayerState) (track : Track) : PlayerState :=
  if strTruthy track.preview_url then
    { s with
      currentTrack := some track
      isPlaying := true
      audioSrc := track.preview_url.getD ""
      audioPaused := false }
  else
    { s with
      currentTrack := some track
      isPlaying := false
      audioSrc := ""
      audioPaused := true }

/-- `togglePlayPause()`: with the audio element present it pauses or plays
according to `isPlaying` and then flips `isPlaying`, with no check of
preview availability.  `play()` on an element whose `src` is empty rejects
and leaves the element paused, so `audioPaused` only clears when a source
is set. -/
def togglePlayPause (s : PlayerState) : PlayerState :=
  if s.isPlaying then
    { s with isPlaying := false, audioPaused := true }
  else
    { s with
      isPlaying := true
      audioPaused := if s.audioSrc == "" then s.audioPaused else false }

/-! ### Visual mapping engine (`src/components/Visualizer.tsx`) -/

/-- A three-component vector (`THREE.Vector3`), over `ℝ`. -/
structure Vec3 where
  x : ℝ
  y : ℝ
  z : ℝ

/-- An HSL colour as passed to `THREE.Color.setHSL` (all components already
divided into `[0,1]` fractions by the code). -/
structure HSL where
  h : ℝ
  s : ℝ
  l : ℝ

/-- The mutable per-bar state touched by the `useFrame` loop: scale,
position, incremental rotation and material colour. -/
structure Mesh where
  scale : Vec3
  position : Vec3
  rotation : Vec3
  color : HSL

/-- The body of the bar loop for one mesh at `index`, given the frame
length `frameLen` (`dataArray.length`) and the sample `dataArray[index]`.
Mirrors the source: `frequency = dataArray[index] / 255`, scale
`y = 0.1 + frequency*3`, `x = z = 0.5 + frequency*0.5`, HSL colour,
polar position with `angle = (index/length)*2π` and `radius = 2 +
frequency`, and cumulative rotation increments. -/
noncomputable def updateBar (frameLen index sample : Nat) (m : Mesh) : Mesh :=
  let frequency : ℝ := (sample : ℝ) / 255
  let hue : ℝ := ((index : ℝ) / (frameLen : ℝ)) * 360
  let saturation : ℝ := 50 + frequency * 50
  let lightness : ℝ := 30 + frequency * 40
  let angle : ℝ := ((index : ℝ) / (frameLen : ℝ)) * Real.pi * 2
  let radius : ℝ := 2 + frequency
  { scale := ⟨0.5 + frequency * 0.5, 0.1 + frequency * 3, 0.5 + frequency * 0.5⟩
    color := ⟨hue / 360, saturation / 100, lightness / 100⟩
    position := ⟨Real.cos angle * radius, frequency * 2 - 1, Real.sin angle * radius⟩
    rotation := ⟨m.rotation.x + frequency * 0.1, m.rotation.y,
                 m.rotation.z + frequency * 0.05⟩ }

/-- `meshRefs.current.forEach((mesh, index) => ...)` with the guard
`dataArray[index] !== undefined`: a bar is updated only when its index is
in range of the frame, and is left untouched otherwise. -/
noncomputable def applyBarsAux (frame : List Nat) : Nat → List Mesh → List Mesh
  | _, [] => []
  | index, m :: rest =>
      (match frame.get? index with
       | some sample => updateBar frame.length index sample m
       | none => m) :: applyBarsAux frame (index + 1) rest

/-- One application of the per-frame bar mapping to the list of bar
meshes. -/
noncomputable def applyFrame (frame : List Nat) (bars : List Mesh) : List Mesh :=
  applyBarsAux frame 0 bars

theorem length_applyBarsAux (frame : List Nat) (idx : Nat) (bars : List Mesh) :
    (applyBarsAux frame idx bars).length = bars.length := by
  induction bars generalizing idx with
  | nil => rfl
  | cons m rest ih => simp [applyBarsAux, ih]

theorem length_applyFrame (frame : List Nat) (bars : List Mesh) :
    (applyFrame frame bars).length = bars.length :=
  length_applyBarsAux frame 0 bars

theorem get_applyBarsAux (frame : List Nat) (idx : Nat) (bars : List Mesh)
    (j : Nat) (h : j < bars.length) :
    (applyBarsAux frame idx bars).get ⟨j, by rw [length_applyBarsAux]; exact h⟩ =
      match frame.get? (idx + j) with
      | some sample => updateBar frame.length (idx + j) sample (bars.get ⟨j, h⟩)
      | none => bars.get ⟨j, h⟩ := by
  induction bars generalizing idx j with
  | nil => exact absurd h (by simp)
  | cons m rest ih =>
    cases j with
    | zero => simp [applyBarsAux]
    | succ j =>
      have hj : j < rest.length := Nat.lt_of_succ_lt_succ h
      have := ih (idx + 1) j hj
      simp only [applyBarsAux, List.get_cons_succ, this]
      have harith : idx + 1 + j = idx + (j + 1) := by omega
      rw [harith]

theorem get_applyFrame_lt (frame : List Nat) (bars : List Mesh) (j : Nat)
    (hb : j < bars.length) (hf : j < frame.length) :
    (applyFrame frame bars).get ⟨j, by rw [length_applyFrame]; exact hb⟩ =
      updateBar frame.length j (frame.get ⟨j, hf⟩) (bars.get ⟨j, hb⟩) := by
  have h := get_applyBarsAux frame 0 bars j hb
  rw [Nat.zero_add, List.get?_eq_get hf] at h
  exact h

theorem get_applyFrame_ge (frame : List Nat) (bars : List Mesh) (j : Nat)
    (hb : j < bars.length) (hf : frame.length ≤ j) :
    (applyFrame frame bars).get ⟨j, by rw [length_applyFrame]; exact hb⟩ =
      bars.get ⟨j, hb⟩ := by
  have h := get_applyBarsAux frame 0 bars j hb
  rw [Nat.zero_add, List.get?_eq_none.mpr hf] at h
  exact h

/-! ### Spectrum source, synthetic branch (`src/components/Visualizer.tsx`) -/

/-- `Math.max(0, Math.min(255, x))`. -/
noncomputable def clamp255 (x : ℝ) : ℝ := max 0 (min 255 x)

/-- JavaScript `ToIntegerOrInfinity` on a finite value: truncation toward
zero. -/
noncomputable def jsTrunc (x : ℝ) : ℤ := if 0 ≤ x then ⌊x⌋ else ⌈x⌉

/-- The `ToUint8` conversion performed by an assignment into a
`Uint8Array`: truncate toward zero, then reduce modulo `2^8`. -/
noncomputable def jsToUint8 (x : ℝ) : ℤ := jsTrunc x % 256

/-- The value computed for sample `i` of the synthetic branch before it is
stored: `Math.max(0, Math.min(255, 80 + wave1 + wave2 + noise))`, with
`wave1 = Math.sin(time*2 + i*0.1) * 30`, `wave2 = Math.sin(time*0.5 +
i*0.05) * 50` and `noise = Math.random() * 20` passed in as `jitter`. -/
noncomputable def synthRaw (t : ℝ) (i : Nat) (jitter : ℝ) : ℝ :=
  clamp255 (80 + Real.sin (t * 2 + (i : ℝ) * 0.1) * 30 +
    Real.sin (t * 0.5 + (i : ℝ) * 0.05) * 50 + jitter)

/-- Sample `i` as stored in the `Uint8Array` (`dataArray[i] = ...`). -/
noncomputable def synthSample (t : ℝ) (i : Nat) (jitter : ℝ) : ℤ :=
  jsToUint8 (synthRaw t i jitter)

/-! ### Theorems about the token lifecycle -/

/-- Claim C5: for every token with a present `accessTokenExpires` and
`now < accessTokenExpires`, the `jwt` validity check returns the token
completely unchanged (all fields identical) and performs no network call,
whatever the token endpoint would have answered. -/
theorem jwt_valid_unchanged (token : Token) (now e : Nat)
    (he : token.accessTokenExpires = some e) (hnow : now < e)
    (outcome : Option RefreshResponse) :
    jwt token none now outcome = ⟨token, false⟩ := by
  have hne : e ≠ 0 := by omega
  simp [jwt, he, numTruthy, hne, hnow]

theorem jwt_valid_unchanged_witness :
    jwt ⟨some "a", some 10, some "r", none⟩ none 5 none =
      ⟨⟨some "a", some 10, some "r", none⟩, false⟩ :=
  jwt_valid_unchanged ⟨some "a", some 10, some "r", none⟩ 5 10 rfl (by omega) none

/-- Claim C4 (amended): for every token with no prior error whose expiry
has passed, the check yields `error = RefreshAccessTokenError` exactly when
no (truthy) refresh token is held or the refresh exchange fails, and the
exchange is attempted exactly when a refresh token is held. -/
theorem jwt_expired_error_iff (token : Token) (now e : Nat)
    (he : token.accessTokenExpires = some e) (hexp : e ≤ now)
    (herr : token.error = none) (outcome : Option RefreshResponse) :
    ((jwt token none now outcome).token.error = some "RefreshAccessTokenError" ↔
      (strTruthy token.refreshToken = false ∨ outcome = none)) ∧
    ((jwt token none now outcome).refreshAttempted = true ↔
      strTruthy token.refreshToken = true) := by
  have hlt : ¬ now < e := by omega
  cases htr : strTruthy token.refreshToken with
  | false => simp [jwt, he, hlt, htr]
  | true =>
    cases outcome with
    | none => simp [jwt, he, hlt, htr, refreshAccessToken]
    | some r => simp [jwt, he, hlt, htr, refreshAccessToken, herr]

theorem jwt_expired_error_iff_witness :
    (((jwt ⟨some "a", some 10, some "r", none⟩ none 10 none).token.error =
        some "RefreshAccessTokenError") ↔
      (strTruthy (some "r") = false ∨ (none : Option RefreshResponse) = none)) ∧
    ((jwt ⟨some "a", some 10, some "r", none⟩ none 10 none).refreshAttempted = true ↔
      strTruthy (some "r") = true) :=
  jwt_expired_error_iff ⟨some "a", some 10, some "r", none⟩ 10 10 rfl
    (Nat.le_refl 10) rfl none

/-- Claim C4 counterexample: a token that already carries
`RefreshAccessTokenError` keeps it through a *successful* refresh (the
success path spreads the old token and never clears `error`), so the
biconditional of the claim fails: the result reports the error although a
refresh token is held and the exchange succeeded. -/
theorem jwt_expired_error_stale :
    ¬ (((jwt ⟨some "a", some 1000, some "r", some "RefreshAccessTokenError"⟩
          none 2000 (some ⟨"b", 3600, none⟩)).token.error =
        some "RefreshAccessTokenError") ↔
      (strTruthy (⟨some "a", some 1000, some "r",
          some "RefreshAccessTokenError"⟩ : Token).refreshToken = false ∨
        (some (⟨"b", 3600, none⟩ : RefreshResponse) :
          Option RefreshResponse) = none)) := by
  decide

/-- Claim C6: a successful refresh installs the response's access token,
sets the expiry to `now + expires_in * 1000`, and replaces the refresh
token only when the response carries one. -/
theorem refreshAccessToken_success (token : Token) (now : Nat)
    (r : RefreshResponse) :
    (refreshAccessToken token now (some r)).accessToken = some r.access_token ∧
    (refreshAccessToken token now (some r)).accessTokenExpires =
      some (now + r.expires_in * 1000) ∧
    (∀ s, r.refresh_token = some s →
      (refreshAccessToken token now (some r)).refreshToken = some s) ∧
    (r.refresh_token = none →
      (refreshAccessToken token now (some r)).refreshToken = token.refreshToken) := by
  refine ⟨rfl, rfl, ?_, ?_⟩
  · intro s hs; simp [refreshAccessToken, hs]
  · intro hn; simp [refreshAccessToken, hn]

theorem refreshAccessToken_success_witness :
    (refreshAccessToken ⟨none, none, some "old", none⟩ 7
        (some ⟨"b", 3600, none⟩)).accessToken = some "b" ∧
    (refreshAccessToken ⟨none, none, some "old", none⟩ 7
        (some ⟨"b", 3600, none⟩)).accessTokenExpires = some (7 + 3600 * 1000) ∧
    (refreshAccessToken ⟨none, none, some "old", none⟩ 7
        (some ⟨"b", 3600, none⟩)).refreshToken = some "old" := by
  have h := refreshAccessToken_success ⟨none, none, some "old", none⟩ 7
    ⟨"b", 3600, none⟩
  exact ⟨h.1, h.2.1, h.2.2.2 rfl⟩

/-- Claim C9: a failed refresh returns the token with `accessToken`,
`accessTokenExpires` and `refreshToken` exactly as before and only the
`error` field set to `RefreshAccessTokenError`. -/
theorem refreshAccessToken_failure_atomic (token : Token) (now : Nat) :
    (refreshAccessToken token now none).accessToken = token.accessToken ∧
    (refreshAccessToken token now none).accessTokenExpires =
      token.accessTokenExpires ∧
    (refreshAccessToken token now none).refreshToken = token.refreshToken ∧
    (refreshAccessToken token now none).error = some "RefreshAccessTokenError" :=
  ⟨rfl, rfl, rfl, rfl⟩

/-- Claim C8 (amended): the sign-in branch records the provider's access
and refresh tokens, clears any previous error, and sets the expiry to
`now + expires_in * 1000`, falling back to 3600 seconds when the provider
omits `expires_in` *or reports it as 0* (the `|| 3600` default also fires
on the falsy value `0`). -/
theorem jwt_sign_in (token : Token) (now : Nat) (a : Account)
    (outcome : Option RefreshResponse) :
    (jwt token (some a) now outcome).token.accessToken = a.access_token ∧
    (jwt token (some a) now outcome).token.refreshToken = a.refresh_token ∧
    (jwt token (some a) now outcome).token.error = none ∧
    (∀ n, a.expires_in = some n → n ≠ 0 →
      (jwt token (some a) now outcome).token.accessTokenExpires =
        some (now + n * 1000)) ∧
    ((a.expires_in = none ∨ a.expires_in = some 0) →
      (jwt token (some a) now outcome).token.accessTokenExpires =
        some (now + 3600 * 1000)) := by
  refine ⟨rfl, rfl, rfl, ?_, ?_⟩
  · intro n hn hne
    cases n with
    | zero => exact absurd rfl hne
    | succ k => simp [jwt, signInToken, jsOr3600, hn]
  · rintro (hn | hn) <;> simp [jwt, signInToken, jsOr3600, hn]

theorem jwt_sign_in_witness :
    (jwt ⟨none, none, none, none⟩ (some ⟨some "x", some 60, some "r"⟩)
        5 none).token.accessToken = some "x" ∧
    (jwt ⟨none, none, none, none⟩ (some ⟨some "x", some 60, some "r"⟩)
        5 none).token.refreshToken = some "r" ∧
    (jwt ⟨none, none, none, none⟩ (some ⟨some "x", some 60, some "r"⟩)
        5 none).token.error = none ∧
    (jwt ⟨none, none, none, none⟩ (some ⟨some "x", some 60, some "r"⟩)
        5 none).token.accessTokenExpires = some (5 + 60 * 1000) := by
  have h := jwt_sign_in ⟨none, none, none, none⟩ 5 ⟨some "x", some 60, some "r"⟩ none
  exact ⟨h.1, h.2.1, h.2.2.1, h.2.2.2.1 60 rfl (by omega)⟩

/-- Claim C8 counterexample: with `expires_in` *present but equal to 0*
the code's `|| 3600` default fires, so the expiry is `now + 3600000`
rather than the claimed `now + expires_in * 1000 = now + 0`. -/
theorem jwt_sign_in_expires_zero :
    (jwt ⟨none, none, none, none⟩ (some ⟨some "a", some 0, some "r"⟩)
        0 none).token.accessTokenExpires = some 3600000 ∧
    (jwt ⟨none, none, none, none⟩ (some ⟨some "a", some 0, some "r"⟩)
        0 none).token.accessTokenExpires ≠ some (0 + 0 * 1000) := by
  constructor <;> decide

/-! ### Theorems about the playback controller -/

/-- Claim C7: selecting a track whose `preview_url` is `null` records it as
the current track, sets `isPlaying` to `false`, pauses the audio element
and clears its source, whatever the prior player state. -/
theorem playTrack_no_preview (s : PlayerState) (track : Track)
    (h : track.preview_url = none) :
    playTrack s track =
      { currentTrack := some track, isPlaying := false, audioSrc := "",
        audioPaused := true } := by
  simp [playTrack, strTruthy, h]

theorem playTrack_no_preview_witness :
    playTrack ⟨some ⟨some "u"⟩, true, "u", false⟩ ⟨none⟩ =
      { currentTrack := some ⟨none⟩, isPlaying := false, audioSrc := "",
        audioPaused := true } :=
  playTrack_no_preview ⟨some ⟨some "u"⟩, true, "u", false⟩ ⟨none⟩ rfl

/-- Claim C1 fails on the code: from the initial state, selecting a track
with no preview and then calling `togglePlayPause` (reachable through the
bottom player-bar button, which is not guarded by `preview_url`) leaves
the controller reporting `isPlaying = true` while the current track has no
preview — `togglePlayPause` never checks preview availability, so it is
not a no-op there and the `isPlaying → hasPreview` invariant breaks. -/
theorem togglePlayPause_no_preview_bug :
    playTrack initState ⟨none⟩ =
      { currentTrack := some ⟨none⟩, isPlaying := false, audioSrc := "",
        audioPaused := true } ∧
    (togglePlayPause (playTrack initState ⟨none⟩)).isPlaying = true ∧
    hasPreview (togglePlayPause (playTrack initState ⟨none⟩)) = false := by
  refine ⟨rfl, rfl, rfl⟩

/-! ### Theorems about the visual mapping engine -/

/-- A bar mesh in its initial state (`position={[0,0,0]}`, default
transforms). -/
noncomputable def mesh0 : Mesh :=
  ⟨⟨0, 0, 0⟩, ⟨0, 0, 0⟩, ⟨0, 0, 0⟩, ⟨0, 0, 0⟩⟩

/-- Claim C2: for every frame of length ≥ 32 with samples in `[0,255]`,
after one application of the bar mapping every bar `i < 32` has
`scale.y ∈ [0.1, 3.1]` and `scale.x = scale.z ∈ [0.5, 1]`. -/
theorem applyFrame_bar_scale_bounds (frame : List Nat) (bars : List Mesh)
    (hlen : 32 ≤ frame.length) (hval : ∀ s ∈ frame, s ≤ 255)
    (i : Nat) (hi : i < 32) (hb : i < bars.length) (m : Mesh)
    (hm : m = (applyFrame frame bars).get
      ⟨i, by rw [length_applyFrame]; exact hb⟩) :
    (0.1 : ℝ) ≤ m.scale.y ∧ m.scale.y ≤ 3.1 ∧ m.scale.x = m.scale.z ∧
    (0.5 : ℝ) ≤ m.scale.x ∧ m.scale.x ≤ 1 := by
  have hf : i < frame.length := lt_of_lt_of_le hi hlen
  rw [hm, get_applyFrame_lt frame bars i hb hf]
  have hs255 : frame.get ⟨i, hf⟩ ≤ 255 :=
    hval (frame.get ⟨i, hf⟩) (List.get_mem frame i hf)
  have h0 : (0 : ℝ) ≤ (frame.get ⟨i, hf⟩ : ℝ) / 255 := by positivity
  have h1 : (frame.get ⟨i, hf⟩ : ℝ) / 255 ≤ 1 := by
    rw [div_le_one (by norm_num)]
    exact_mod_cast hs255
  simp only [updateBar]
  refine ⟨by nlinarith, by nlinarith, by trivial, by nlinarith, by nlinarith⟩

theorem applyFrame_bar_scale_bounds_witness :
    (0.1 : ℝ) ≤ ((applyFrame (List.replicate 32 0)
        (List.replicate 32 mesh0)).get
      ⟨0, by rw [length_applyFrame]; simp⟩).scale.y ∧
    ((applyFrame (List.replicate 32 0) (List.replicate 32 mesh0)).get
      ⟨0, by rw [length_applyFrame]; simp⟩).scale.y ≤ 3.1 ∧
    ((applyFrame (List.replicate 32 0) (List.replicate 32 mesh0)).get
      ⟨0, by rw [length_applyFrame]; simp⟩).scale.x =
      ((applyFrame (List.replicate 32 0) (List.replicate 32 mesh0)).get
        ⟨0, by rw [length_applyFrame]; simp⟩).scale.z ∧
    (0.5 : ℝ) ≤ ((applyFrame (List.replicate 32 0)
        (List.replicate 32 mesh0)).get
      ⟨0, by rw [length_applyFrame]; simp⟩).scale.x ∧
    ((applyFrame (List.replicate 32 0) (List.replicate 32 mesh0)).get
      ⟨0, by rw [length_applyFrame]; simp⟩).scale.x ≤ 1 :=
  applyFrame_bar_scale_bounds (List.replicate 32 0) (List.replicate 32 mesh0)
    (by simp) (by decide) 0 (by omega) (by simp) _ rfl

/-- Claim C10: for every frame shorter than 32 samples, the bar loop leaves
every bar whose index is at least the frame's length completely unchanged
(scale, position, rotation and colour). -/
theorem applyFrame_short_frame_unchanged (frame : List Nat) (bars : List Mesh)
    (_hshort : frame.length < 32) (i : Nat) (hb : i < bars.length)
    (hge : frame.length ≤ i) :
    (applyFrame frame bars).get ⟨i, by rw [length_applyFrame]; exact hb⟩ =
      bars.get ⟨i, hb⟩ :=
  get_applyFrame_ge frame bars i hb hge

theorem applyFrame_short_frame_unchanged_witness :
    (applyFrame [7] [mesh0, mesh0]).get
      ⟨1, by rw [length_applyFrame]; simp⟩ =
      [mesh0, mesh0].get ⟨1, by simp⟩ :=
  applyFrame_short_frame_unchanged [7] [mesh0, mesh0] (by simp) 1
    (by simp) (by simp)

/-! ### Theorems about the synthetic spectrum source -/

theorem clamp255_nonneg (x : ℝ) : 0 ≤ clamp255 x := le_max_left 0 _

theorem clamp255_le (x : ℝ) : clamp255 x ≤ 255 :=
  max_le (by norm_num) (min_le_left 255 x)

/-- For a value already in `[0,255]`, the `Uint8Array` store is just the
floor. -/
theorem jsToUint8_of_mem (x : ℝ) (h0 : 0 ≤ x) (h1 : x ≤ 255) :
    jsToUint8 x = ⌊x⌋ := by
  have hf0 : (0 : ℤ) ≤ ⌊x⌋ := Int.floor_nonneg.mpr h0
  have hf1 : ⌊x⌋ < 256 := by
    have h := Int.floor_le_floor h1
    simp at h
    omega
  rw [jsToUint8, jsTrunc, if_pos h0]
  exact Int.emod_eq_of_lt hf0 hf1

/-- Claim C3 (amended): for every `elapsedSeconds ≥ 0` and jitter draw in
`[0,20)`, each stored synthetic sample is an integer in `[0,255]` (in
particular never NaN), and equals the integer truncation of
`clamp(0, 255, 80 + 30*sin(2t+0.1i) + 50*sin(0.5t+0.05i) + jitter)` — the
`Uint8Array` store truncates the clamped value, it does not keep the
fractional part. -/
theorem synthSample_range (t : ℝ) (i : Nat) (jitter : ℝ)
    (_ht : 0 ≤ t) (_hj0 : 0 ≤ jitter) (_hj1 : jitter < 20) :
    0 ≤ synthSample t i jitter ∧ synthSample t i jitter ≤ 255 ∧
    synthSample t i jitter =
      ⌊max 0 (min 255 (80 + 30 * Real.sin (2 * t + 0.1 * (i : ℝ)) +
        50 * Real.sin (0.5 * t + 0.05 * (i : ℝ)) + jitter))⌋ := by
  have h0 := clamp255_nonneg (80 + Real.sin (t * 2 + (i : ℝ) * 0.1) * 30 +
    Real.sin (t * 0.5 + (i : ℝ) * 0.05) * 50 + jitter)
  have h1 := clamp255_le (80 + Real.sin (t * 2 + (i : ℝ) * 0.1) * 30 +
    Real.sin (t * 0.5 + (i : ℝ) * 0.05) * 50 + jitter)
  have he : synthSample t i jitter = ⌊synthRaw t i jitter⌋ :=
    jsToUint8_of_mem _ h0 h1
  have hform : synthRaw t i jitter =
      max 0 (min 255 (80 + 30 * Real.sin (2 * t + 0.1 * (i : ℝ)) +
        50 * Real.sin (0.5 * t + 0.05 * (i : ℝ)) + jitter)) := by
    rw [synthRaw, clamp255]
    have e1 : t * 2 + (i : ℝ) * 0.1 = 2 * t + 0.1 * (i : ℝ) := by ring
    have e2 : t * 0.5 + (i : ℝ) * 0.05 = 0.5 * t + 0.05 * (i : ℝ) := by ring
    rw [e1, e2]
    ring_nf
  refine ⟨?_, ?_, by rw [he, hform]⟩
  · rw [he]
    exact Int.floor_nonneg.mpr h0
  · rw [he]
    have h := Int.floor_le_floor h1
    simpa using h

theorem synthSample_range_witness :
    0 ≤ synthSample 0 0 0 ∧ synthSample 0 0 0 ≤ 255 ∧
    synthSample 0 0 0 =
      ⌊max 0 (min 255 (80 + 30 * Real.sin (2 * 0 + 0.1 * ((0 : ℕ) : ℝ)) +
        50 * Real.sin (0.5 * 0 + 0.05 * ((0 : ℕ) : ℝ)) + 0))⌋ :=
  synthSample_range 0 0 0 le_rfl le_rfl (by norm_num)

/-- Claim C3 counterexample: at `t = 0`, `i = 0` and jitter
`5/8 ∈ [0,20)`, the unclamped value is `80.625`, so the clamp is `80.625`,
but the stored sample is the truncated `80` — the sample does not equal
`clamp(0, 255, 80 + 30*sin(2t+0.1i) + 50*sin(0.5t+0.05i) + jitter)` as the
claim states. -/
theorem synthSample_ne_clamp :
    ((synthSample 0 0 (5 / 8) : ℤ) : ℝ) ≠
      max 0 (min 255 (80 + 30 * Real.sin (2 * 0 + 0.1 * ((0 : ℕ) : ℝ)) +
        50 * Real.sin (0.5 * 0 + 0.05 * ((0 : ℕ) : ℝ)) + 5 / 8)) := by
  have harg : (0 : ℝ) * 2 + ((0 : ℕ) : ℝ) * 0.1 = 0 := by norm_num
  have harg2 : (0 : ℝ) * 0.5 + ((0 : ℕ) : ℝ) * 0.05 = 0 := by norm_num
  have hraw : synthRaw 0 0 (5 / 8) = 80 + 5 / 8 := by
    rw [synthRaw, harg, harg2, Real.sin_zero, clamp255]
    norm_num
  have hval : synthSample 0 0 (5 / 8) = 80 := by
    rw [synthSample, hraw, jsToUint8_of_mem _ (by norm_num) (by norm_num)]
    rw [show (80 : ℝ) + 5 / 8 = 80 + 0.625 by norm_num]
    rw [Int.floor_eq_iff]
    norm_num
  rw [hval]
  have hclamp : max 0 (min 255 (80 + 30 * Real.sin (2 * 0 + 0.1 * ((0 : ℕ) : ℝ)) +
      50 * Real.sin (0.5 * 0 + 0.05 * ((0 : ℕ) : ℝ)) + 5 / 8)) = 80 + 5 / 8 := by
    norm_num [Real.sin_zero]
  rw [hclamp]
  norm_num

end Vizify
